import Mathlib

/-!
# Verification of `poppinsbag/colors.py` (pyPoppins)

A shallow embedding of the `Color` class from `src/poppinsbag/colors.py`.

Modelling conventions:
* Python `str` values are embedded as `List Char`; byte strings as `List Nat`
  (each entry a byte value).
* Python exceptions (`ValueError` from `int(s, 16)`, `AttributeError` from
  reading an unset attribute, the class's `NotAValidComponentException`) are
  embedded as `Option`/`Except`: `none`/`.error` means the Python call raises.
* Python floats in `convert_rgb_to_hsl` are embedded as exact rationals `ℚ`;
  Python 3 `round` (round-half-to-even on the value) is embedded as `pyRound`.
* Python object attributes that may be unset are `Option` fields of the
  `Color` structure; a constructed-object state maps attribute reads to the
  stored values.
-/

namespace Poppins

/-- One hexadecimal digit accepted by Python `int(s, 16)`:
`0`-`9`, `a`-`f`, `A`-`F`. -/
def parseHexDigit (c : Char) : Option Nat :=
  if '0' ≤ c ∧ c ≤ '9' then some (c.toNat - '0'.toNat)
  else if 'a' ≤ c ∧ c ≤ 'f' then some (c.toNat - 'a'.toNat + 10)
  else if 'A' ≤ c ∧ c ≤ 'F' then some (c.toNat - 'A'.toNat + 10)
  else none

/-- Python `int(s, 16)` on a string of digits: fails (`ValueError`) on the
empty string or on any non-hex-digit character, otherwise the base-16 value.
(Python additionally tolerates surrounding whitespace, a sign and an `0x`
prefix; none of the strings this file reasons about use those forms.) -/
def parseHex (s : List Char) : Option Nat :=
  if s = [] then none
  else s.foldlM (fun acc c => (parseHexDigit c).map (fun d => 16 * acc + d)) 0

/-- Python `hex(n)[2:]` for a nonnegative `n`: the base-16 digits of `n`,
lowercase, no leading zeros (and `"0"` for `0`). `Nat.toDigits 16` matches
this exactly. -/
def hexStr (n : Nat) : List Char :=
  Nat.toDigits 16 n

/-- Python `s.zfill(2)`: left-pad with `'0'` to length 2. -/
def zfill2 (s : List Char) : List Char :=
  if s.length < 2 then List.replicate (2 - s.length) '0' ++ s else s

/-- One channel of `Color.convert_rgb_to_hex`: `hex(int(ch))[2:].zfill(2)`. -/
def channelHex (ch : Nat) : List Char :=
  zfill2 (hexStr ch)

/-- `Color.convert_rgb_to_hex`, as a function of the `_rgb` attribute it
reads: `"#%s" % "".join((hexred, hexgreen, hexblue))`. -/
def convert_rgb_to_hex (rgb : Nat × Nat × Nat) : List Char :=
  '#' :: (channelHex rgb.1 ++ channelHex rgb.2.1 ++ channelHex rgb.2.2)

/-- `Color.convert_hex_to_rgb`, as a function of the `_hex_rgb` attribute it
reads: strip the first character, then `int(_[:2], 16)`, `int(_[2:4], 16)`,
`int(_[4:], 16)`.  `none` models the `ValueError` raised when a slice is not
a valid hexadecimal numeral. -/
def convert_hex_to_rgb (hex : List Char) : Option (Nat × Nat × Nat) := do
  let u := hex.drop 1
  let r ← parseHex (u.take 2)
  let g ← parseHex ((u.drop 2).take 2)
  let b ← parseHex (u.drop 4)
  pure (r, g, b)

example : convert_rgb_to_hex (210, 12, 100) = "#d20c64".toList := by decide
example : convert_hex_to_rgb "#d20c64".toList = some (210, 12, 100) := by decide
example : convert_hex_to_rgb "#zzzzzz".toList = none := by decide
example : convert_hex_to_rgb "#12345".toList = some (18, 52, 5) := by decide

/-! ## RGB → HSL (`Color.convert_rgb_to_hsl`)

The Python method computes with floats; here the same formulas are evaluated
in exact rational arithmetic, and Python 3's `round` (banker's rounding,
half-to-even) is `pyRound`.  `int(round(x))` on an integer-valued float is
that integer, so `int(round(x))` is embedded as `pyRound x` directly. -/

/-- Python 3 `round(x)` to an integer: nearest integer, ties to even. -/
def pyRound (q : ℚ) : ℤ :=
  let f := ⌊q⌋
  let r := q - (f : ℚ)
  if r < 1/2 then f
  else if 1/2 < r then f + 1
  else if Even f then f else f + 1

/-- Python `x % y` on reals (sign of the divisor): `x - y * floor (x / y)`. -/
def pyFMod (x y : ℚ) : ℚ :=
  x - y * (⌊x / y⌋ : ℚ)

/-- The exact (pre-rounding) hue of `Color.convert_rgb_to_hsl`: the
`if`/`elif` chain computing `h_hsl`, then `h_hsl = 60 * h_hsl`.  The final
Python branch is an `elif max_rgb == self._rgb[2]`; `max` of the three
channels always equals one of them, so that condition holds whenever it is
reached and is embedded as the trailing `else`. -/
def hueExact (rgb : Nat × Nat × Nat) : ℚ :=
  let (red, green, blue) := rgb
  let max_rgb : Nat := max red (max green blue)
  let min_rgb : Nat := min red (min green blue)
  let diff_max_min : ℚ := (max_rgb : ℚ) - (min_rgb : ℚ)
  let h_hsl : ℚ :=
    if diff_max_min = 0 then 0
    else if max_rgb = red then pyFMod (((green : ℚ) - (blue : ℚ)) / diff_max_min) 6
    else if max_rgb = green then ((blue : ℚ) - (red : ℚ)) / diff_max_min + 2
    else ((red : ℚ) - (green : ℚ)) / diff_max_min + 4
  60 * h_hsl

/-- The exact (pre-rounding) lightness of `Color.convert_rgb_to_hsl`:
`l_hsl = 0.5 * (max_rgb + min_rgb) / 255.`. -/
def lightExact (rgb : Nat × Nat × Nat) : ℚ :=
  let (red, green, blue) := rgb
  let max_rgb : Nat := max red (max green blue)
  let min_rgb : Nat := min red (min green blue)
  (1/2 : ℚ) * ((max_rgb : ℚ) + (min_rgb : ℚ)) / 255

/-- The exact (pre-rounding) saturation of `Color.convert_rgb_to_hsl`:
`0` if `l_hsl in (0, 1)`, else `diff_max_min / (1 - |2*l_hsl - 1|) / 255`. -/
def satExact (rgb : Nat × Nat × Nat) : ℚ :=
  let (red, green, blue) := rgb
  let max_rgb : Nat := max red (max green blue)
  let min_rgb : Nat := min red (min green blue)
  let diff_max_min : ℚ := (max_rgb : ℚ) - (min_rgb : ℚ)
  let l_hsl := lightExact rgb
  if l_hsl = 0 ∨ l_hsl = 1 then 0
  else diff_max_min / (1 - |2 * l_hsl - 1|) / 255

/-- `Color.convert_rgb_to_hsl`, as a function of the `_rgb` attribute it
reads: `(int(round(h_hsl)), int(round(s_hsl*100)), int(round(l_hsl*100)))`.

The method computes with IEEE-754 doubles; this embedding computes the same
formulas in exact rational arithmetic, so it agrees with the program except
possibly where an intermediate float rounding error changes which integer
`round` returns — that is, at inputs whose exact value lies on or next to a
rounding boundary while the float computation is inexact.  Every concrete
input this file evaluates the definition at is either float-exact (all
intermediate values dyadic, e.g. (128, 48, 0)) or far from a boundary
(e.g. (210, 12, 100), (255, 0, 1)), where the two agree. -/
def convert_rgb_to_hsl (rgb : Nat × Nat × Nat) : ℤ × ℤ × ℤ :=
  (pyRound (hueExact rgb), pyRound (satExact rgb * 100),
    pyRound (lightExact rgb * 100))

/-! Evaluation lemmas for `pyRound`: the three branches, characterised by
order relations, so that concrete rational inputs can be handled by
`norm_num`. -/

theorem pyRound_eq_of_mem_Ico {q : ℚ} {n : ℤ} (h1 : (n : ℚ) ≤ q)
    (h2 : q < (n : ℚ) + 1/2) : pyRound q = n := by
  have hf : ⌊q⌋ = n := Int.floor_eq_iff.mpr ⟨h1, by linarith⟩
  unfold pyRound
  rw [hf, if_pos (by rw [hf] at *; linarith)]

theorem pyRound_eq_of_mem_Ioc {q : ℚ} {n : ℤ} (h1 : (n : ℚ) - 1/2 < q)
    (h2 : q ≤ (n : ℚ)) : pyRound q = n := by
  rcases eq_or_lt_of_le h2 with heq | hlt
  · exact pyRound_eq_of_mem_Ico (le_of_eq heq.symm) (by linarith)
  · have hf : ⌊q⌋ = n - 1 := by
      apply Int.floor_eq_iff.mpr
      constructor
      · push_cast; linarith
      · push_cast; linarith
    have hr : (1:ℚ)/2 < q - ((n - 1 : ℤ) : ℚ) := by push_cast; linarith
    unfold pyRound
    rw [hf, if_neg (by rw [hf] at *; linarith), if_pos (by rw [hf] at *; linarith)]
    ring

theorem pyRound_int_add_half (n : ℤ) :
    pyRound ((n : ℚ) + 1/2) = if Even n then n else n + 1 := by
  have hf : ⌊(n : ℚ) + 1/2⌋ = n := by
    apply Int.floor_eq_iff.mpr
    constructor
    · linarith
    · norm_num
  have hr : ((n : ℚ) + 1/2) - ((n : ℚ)) = 1/2 := by ring
  unfold pyRound
  rw [hf, if_neg (by rw [hf] at *; linarith), if_neg (by rw [hf] at *; linarith)]

/-! ## MD5 (`hashlib.md5(string).hexdigest()`)

The MD5 hash (RFC 1321), on a list of input bytes, producing the 32-character
lowercase hexadecimal digest exactly as Python's `hexdigest()` renders it.
All 32-bit machine arithmetic is `Nat` arithmetic reduced modulo `2^32`. -/

/-- `2^32`, the modulus of MD5's 32-bit word arithmetic. -/
def w32 : Nat := 4294967296

/-- Bitwise complement on 32-bit words. -/
def md5not (x : Nat) : Nat := 4294967295 ^^^ x

/-- Left-rotation of a 32-bit word by `s` places. -/
def md5rotl (x s : Nat) : Nat :=
  ((x <<< s) ||| (x >>> (32 - s))) % w32

/-- MD5 per-round left-rotation amounts. -/
def md5S : List Nat :=
  [7, 12, 17, 22, 7, 12, 17, 22, 7, 12, 17, 22, 7, 12, 17, 22,
   5, 9, 14, 20, 5, 9, 14, 20, 5, 9, 14, 20, 5, 9, 14, 20,
   4, 11, 16, 23, 4, 11, 16, 23, 4, 11, 16, 23, 4, 11, 16, 23,
   6, 10, 15, 21, 6, 10, 15, 21, 6, 10, 15, 21, 6, 10, 15, 21]

/-- MD5 sine-derived additive constants. -/
def md5K : List Nat :=
  [0xd76aa478, 0xe8c7b756, 0x242070db, 0xc1bdceee,
   0xf57c0faf, 0x4787c62a, 0xa8304613, 0xfd469501,
   0x698098d8, 0x8b44f7af, 0xffff5bb1, 0x895cd7be,
   0x6b901122, 0xfd987193, 0xa679438e, 0x49b40821,
   0xf61e2562, 0xc040b340, 0x265e5a51, 0xe9b6c7aa,
   0xd62f105d, 0x02441453, 0xd8a1e681, 0xe7d3fbc8,
   0x21e1cde6, 0xc33707d6, 0xf4d50d87, 0x455a14ed,
   0xa9e3e905, 0xfcefa3f8, 0x676f02d9, 0x8d2a4c8a,
   0xfffa3942, 0x8771f681, 0x6d9d6122, 0xfde5380c,
   0xa4beea44, 0x4bdecfa9, 0xf6bb4b60, 0xbebfbc70,
   0x289b7ec6, 0xeaa127fa, 0xd4ef3085, 0x04881d05,
   0xd9d4d039, 0xe6db99e5, 0x1fa27cf8, 0xc4ac5665,
   0xf4292244, 0x432aff97, 0xab9423a7, 0xfc93a039,
   0x655b59c3, 0x8f0ccc92, 0xffeff47d, 0x85845dd1,
   0x6fa87e4f, 0xfe2ce6e0, 0xa3014314, 0x4e0811a1,
   0xf7537e82, 0xbd3af235, 0x2ad7d2bb, 0xeb86d391]

/-- The nonlinear function of MD5 round `i` applied to words `b`, `c`, `d`. -/
def md5F (i b c d : Nat) : Nat :=
  if i < 16 then (b &&& c) ||| (md5not b &&& d)
  else if i < 32 then (d &&& b) ||| (md5not d &&& c)
  else if i < 48 then b ^^^ c ^^^ d
  else c ^^^ (b ||| md5not d)

/-- The message-word index used in MD5 round `i`. -/
def md5G (i : Nat) : Nat :=
  if i < 16 then i
  else if i < 32 then (5 * i + 1) % 16
  else if i < 48 then (3 * i + 5) % 16
  else (7 * i) % 16

/-- One MD5 round: state `(a, b, c, d)` and round index `i`, over the
16 message words `M` of the current block. -/
def md5Round (M : List Nat) (st : Nat × Nat × Nat × Nat) (i : Nat) :
    Nat × Nat × Nat × Nat :=
  let (a, b, c, d) := st
  let f := (md5F i b c d + a + md5K.getD i 0 + M.getD (md5G i) 0) % w32
  (d, (b + md5rotl f (md5S.getD i 0)) % w32, b, c)

/-- `n` as `k` little-endian bytes (modulo `2^(8k)`). -/
def toLEBytes : Nat → Nat → List Nat
  | 0, _ => []
  | k + 1, n => (n % 256) :: toLEBytes k (n / 256)

/-- Groups of 4 consecutive bytes as little-endian 32-bit words. -/
def bytesToWords : List Nat → List Nat
  | b0 :: b1 :: b2 :: b3 :: rest =>
      (b0 + 256 * b1 + 65536 * b2 + 16777216 * b3) :: bytesToWords rest
  | _ => []

/-- Process one 64-byte block into the chaining state. -/
def md5Block (st : Nat × Nat × Nat × Nat) (block : List Nat) :
    Nat × Nat × Nat × Nat :=
  let M := bytesToWords block
  let (a0, b0, c0, d0) := st
  let (a, b, c, d) := (List.range 64).foldl (md5Round M) st
  ((a0 + a) % w32, (b0 + b) % w32, (c0 + c) % w32, (d0 + d) % w32)

/-- MD5 padding: a `0x80` byte, zero bytes to 56 mod 64, then the bit
length as 8 little-endian bytes. -/
def md5Pad (msg : List Nat) : List Nat :=
  msg ++ [0x80] ++ List.replicate ((119 - msg.length % 64) % 64) 0
      ++ toLEBytes 8 ((8 * msg.length) % 18446744073709551616)

/-- Split a list into chunks of 64 elements; the first argument is fuel
(any value at least the list's length makes the result complete). -/
def chunks64 : Nat → List Nat → List (List Nat)
  | 0, _ => []
  | _ + 1, [] => []
  | fuel + 1, l => l.take 64 :: chunks64 fuel (l.drop 64)

/-- The 16-byte MD5 digest of a byte string. -/
def md5Bytes (msg : List Nat) : List Nat :=
  let padded := md5Pad msg
  let (a, b, c, d) :=
    (chunks64 padded.length padded).foldl md5Block
      (0x67452301, 0xefcdab89, 0x98badcfe, 0x10325476)
  toLEBytes 4 a ++ toLEBytes 4 b ++ toLEBytes 4 c ++ toLEBytes 4 d

/-- `hashlib.md5(msg).hexdigest()`: each digest byte as two lowercase hex
characters (`"%02x"`, which is `channelHex` on a byte value). -/
def md5hexdigest (msg : List Nat) : List Char :=
  (md5Bytes msg).flatMap channelHex

/-- The bytes of the Python byte literal `b"network"`. -/
def networkBytes : List Nat := [110, 101, 116, 119, 111, 114, 107]

set_option maxRecDepth 40000

example : md5hexdigest networkBytes
    = "91e02cd2b8621d0c05197f645668c5c4".toList := by decide

example : convert_rgb_to_hsl (210, 12, 100) = (333, 89, 44) := by
  refine Prod.ext ?_ (Prod.ext ?_ ?_)
  · show pyRound (hueExact (210, 12, 100)) = 333
    have h : hueExact (210, 12, 100) = 1000/3 := by
      unfold hueExact pyFMod; norm_num [Int.floor_eq_iff]
    rw [h]; exact pyRound_eq_of_mem_Ico (by norm_num) (by norm_num)
  · show pyRound (satExact (210, 12, 100) * 100) = 89
    have h : satExact (210, 12, 100) = 33/37 := by
      unfold satExact lightExact; norm_num [abs_of_nonneg]
    rw [h]; exact pyRound_eq_of_mem_Ico (by norm_num) (by norm_num)
  · show pyRound (lightExact (210, 12, 100) * 100) = 44
    have h : lightExact (210, 12, 100) = 37/85 := by
      unfold lightExact; norm_num
    rw [h]; exact pyRound_eq_of_mem_Ioc (by norm_num) (by norm_num)

/-! ## The `Color` object

Python object attributes may be unset (reading one raises
`AttributeError`), so each attribute is an `Option` field.  Methods that can
raise return `Option Color`: `none` is a raised exception, and the prior
state is untouched (matching Python, where the exception propagates out of
the method). -/

structure Color where
  mk ::
  _rgb : Option (Nat × Nat × Nat)
  _hex_rgb : Option (List Char)
  _hex : Option (List Char)
  _hsl : Option (ℤ × ℤ × ℤ)
deriving DecidableEq, Repr

/-- A fresh object with no attributes set. -/
def Color.blank : Color := Color.mk none none none none

/-- `Color.get_hex`: `return self._hex_rgb`. -/
def Color.get_hex (c : Color) : Option (List Char) := c._hex_rgb

/-- `Color.get_rgb`: `return self._rgb`. -/
def Color.get_rgb (c : Color) : Option (Nat × Nat × Nat) := c._rgb

/-- `Color.get_hsl`: `return self._hsl`. -/
def Color.get_hsl (c : Color) : Option (ℤ × ℤ × ℤ) := c._hsl

/-- `Color.set_hex_from_rgb`: `self._hex_rgb = self.convert_rgb_to_hex()`. -/
def Color.set_hex_from_rgb (c : Color) : Option Color := do
  let rgb ← c.get_rgb
  pure (Color.mk c._rgb (some (convert_rgb_to_hex rgb)) c._hex c._hsl)

/-- `Color.set_rgb_from_hex`: `self._rgb = self.convert_hex_to_rgb()`. -/
def Color.set_rgb_from_hex (c : Color) : Option Color := do
  let hex ← c.get_hex
  let rgb ← convert_hex_to_rgb hex
  pure (Color.mk (some rgb) c._hex_rgb c._hex c._hsl)

/-- `Color.set_hsl_from_rgb`: `self._hsl = self.convert_rgb_to_hsl()`. -/
def Color.set_hsl_from_rgb (c : Color) : Option Color := do
  let rgb ← c.get_rgb
  pure (Color.mk c._rgb c._hex_rgb c._hex (some (convert_rgb_to_hsl rgb)))

/-- `Color.set_hsl_from_hex`: `self._rgb = self.convert_hex_to_rgb()` then
`self._hsl = self.convert_rgb_to_hsl()` (which reads the just-updated
`_rgb`). -/
def Color.set_hsl_from_hex (c : Color) : Option Color := do
  let hex ← c.get_hex
  let rgb ← convert_hex_to_rgb hex
  pure (Color.mk (some rgb) c._hex_rgb c._hex (some (convert_rgb_to_hsl rgb)))

/-- `Color.set_rgb_from_string`: md5-hexdigest the byte string, slice the
32-character digest as `hash_str[8*i:8*(i+1)]` for `i = 0, 1, 2`, parse each
slice base 16, and reduce each modulo 256. -/
def Color.set_rgb_from_string (c : Color) (string : List Nat) : Option Color := do
  let hash_str := md5hexdigest string
  let red := (hash_str.drop 0).take 8
  let green := (hash_str.drop 8).take 8
  let blue := (hash_str.drop 16).take 8
  let int_r ← parseHex red
  let int_g ← parseHex green
  let int_b ← parseHex blue
  pure (Color.mk (some (int_r % 256, int_g % 256, int_b % 256))
    c._hex_rgb c._hex c._hsl)

/-- `Color.set_hex_from_string`: `set_rgb_from_string`, then
`set_hex_from_rgb`, then `set_hsl_from_hex`. -/
def Color.set_hex_from_string (c : Color) (string : List Nat) : Option Color := do
  let c1 ← c.set_rgb_from_string string
  let c2 ← c1.set_hex_from_rgb
  c2.set_hsl_from_hex

/-- The default value of the constructor's `rgb` parameter. -/
def defaultRgb : Nat × Nat × Nat := (0, 0, 0)

/-- The default value of the constructor's `hex_rgb` parameter. -/
def defaultHex : List Char := "#000000".toList

/-- Python truthiness of the `string` parameter: `None` and the empty byte
string are falsy, any nonempty byte string is truthy. -/
def stringTruthy : Option (List Nat) → Bool
  | none => false
  | some s => !s.isEmpty

/-- `Color.__init__(self, rgb=(0, 0, 0), hex_rgb="#000000", string=None)`.
`string` is `none` for Python `None`.  The `else` branch stores the
computed hex in the attribute `_hex` (not `_hex_rgb`), exactly as the
source does. -/
def colorNew (rgb : Nat × Nat × Nat) (hex_rgb : List Char)
    (string : Option (List Nat)) : Option Color :=
  if hex_rgb ≠ defaultHex then do
    let rgb' ← convert_hex_to_rgb hex_rgb
    pure (Color.mk (some rgb') (some hex_rgb) none
      (some (convert_rgb_to_hsl rgb')))
  else if stringTruthy string then
    Color.blank.set_hex_from_string (string.getD [])
  else
    pure (Color.mk (some rgb) none (some (convert_rgb_to_hex rgb))
      (some (convert_rgb_to_hsl rgb)))

/-! ## Component access (`Color.models`, `Color.__getitem__`) -/

/-- Python `needle in hay` / `hay.index(needle)` for strings: the index of
the first occurrence of `needle` as a contiguous substring of `hay`
(`some i`), or `none` when there is none.  The empty needle occurs at
index 0. -/
def findSubstring (needle : List Char) : List Char → Option Nat
  | [] => if needle = [] then some 0 else none
  | c :: t =>
    if needle.isPrefixOf (c :: t) then some 0
    else (findSubstring needle t).map (· + 1)

/-- The errors `Color.__getitem__` can raise: `AttributeError` from reading
an unset attribute inside `models`, the class's own
`NotAValidComponentException`, and `IndexError` from list indexing. -/
inductive ItemErr where
  | attributeError : ItemErr
  | notAValidComponent : ItemErr
  | indexError : ItemErr
deriving DecidableEq, Repr

/-- `Color.models`: the dict `{'RGB': self.get_rgb(), 'HSL': self.get_hsl()}`
as an ordered association list (Python dicts preserve insertion order).
Both attribute reads happen when the dict literal is built, so either being
unset raises.  RGB components are cast to `ℤ` so both models carry one value
type, as all Python components are `int`s. -/
def Color.models (c : Color) : Option (List (List Char × List ℤ)) := do
  let rgb ← c.get_rgb
  let hsl ← c.get_hsl
  pure [("RGB".toList, [(rgb.1 : ℤ), (rgb.2.1 : ℤ), (rgb.2.2 : ℤ)]),
        ("HSL".toList, [hsl.1, hsl.2.1, hsl.2.2])]

/-- `Color.__getitem__`: uppercase the component name, join the model keys
into `good_components` (`"RGBHSL"`), raise unless the name occurs in it as a
substring, then index `models.values()[component_index / 3][component_index
% 3]`.  `component.upper()` is modelled per character (`Char.toUpper`),
which agrees with Python for ASCII names. -/
def Color.getItem (c : Color) (component : List Char) : Except ItemErr ℤ :=
  match c.models with
  | none => .error .attributeError
  | some ms =>
    let comp := component.map Char.toUpper
    let good_components := (ms.map Prod.fst).foldr (· ++ ·) []
    match findSubstring comp good_components with
    | none => .error .notAValidComponent
    | some component_index =>
      match (ms.map Prod.snd).get? (component_index / 3) with
      | none => .error .indexError
      | some model =>
        match model.get? (component_index % 3) with
        | none => .error .indexError
        | some v => .ok v

instance {ε α : Type} [DecidableEq ε] [DecidableEq α] :
    DecidableEq (Except ε α) := fun a b =>
  match a, b with
  | .ok x, .ok y =>
    decidable_of_iff (x = y) ⟨fun h => h ▸ rfl, fun h => by cases h; rfl⟩
  | .error x, .error y =>
    decidable_of_iff (x = y) ⟨fun h => h ▸ rfl, fun h => by cases h; rfl⟩
  | .ok _, .error _ => isFalse (fun h => by cases h)
  | .error _, .ok _ => isFalse (fun h => by cases h)

/-- A concrete fully-constructed color used to exercise the accessor: the
stored values are arbitrary distinct numbers. -/
def sampleColor : Color :=
  Color.mk (some (1, 2, 3)) (some "#010203".toList) none (some (4, 5, 6))

/-! ## Division-guarded variant of the RGB → HSL conversion

The same computation as `convert_rgb_to_hsl`, with every division whose
denominator is a computed value (the divisions by `diff_max_min` and the
division by `1 - |2*l_hsl - 1|`) guarded: `none` if such a division is
reached with a zero denominator. -/

/-- Division returning `none` on a zero denominator. -/
def qdivChecked (x y : ℚ) : Option ℚ :=
  if y = 0 then none else some (x / y)

/-- `hueExact` with its divisions by `diff_max_min` guarded. -/
def hueExactChecked (rgb : Nat × Nat × Nat) : Option ℚ :=
  let (red, green, blue) := rgb
  let max_rgb : Nat := max red (max green blue)
  let min_rgb : Nat := min red (min green blue)
  let diff_max_min : ℚ := (max_rgb : ℚ) - (min_rgb : ℚ)
  let h_hsl : Option ℚ :=
    if diff_max_min = 0 then some 0
    else if max_rgb = red then
      (qdivChecked ((green : ℚ) - (blue : ℚ)) diff_max_min).map (pyFMod · 6)
    else if max_rgb = green then
      (qdivChecked ((blue : ℚ) - (red : ℚ)) diff_max_min).map (· + 2)
    else
      (qdivChecked ((red : ℚ) - (green : ℚ)) diff_max_min).map (· + 4)
  h_hsl.map (60 * ·)

/-- `satExact` with its division by `1 - |2*l_hsl - 1|` guarded. -/
def satExactChecked (rgb : Nat × Nat × Nat) : Option ℚ :=
  let (red, green, blue) := rgb
  let max_rgb : Nat := max red (max green blue)
  let min_rgb : Nat := min red (min green blue)
  let diff_max_min : ℚ := (max_rgb : ℚ) - (min_rgb : ℚ)
  let l_hsl := lightExact rgb
  if l_hsl = 0 ∨ l_hsl = 1 then some 0
  else (qdivChecked diff_max_min (1 - |2 * l_hsl - 1|)).map (· / 255)

/-- `convert_rgb_to_hsl` with guarded divisions: `none` when any reached
division has a zero denominator. -/
def convert_rgb_to_hsl_checked (rgb : Nat × Nat × Nat) : Option (ℤ × ℤ × ℤ) := do
  let h ← hueExactChecked rgb
  let s ← satExactChecked rgb
  pure (pyRound h, pyRound (s * 100), pyRound (lightExact rgb * 100))

/-- Modelled from the spec (§4.2 reference algorithm, for comparison with
the code's `set_rgb_from_string`): compute the 32-character lowercase
hexadecimal MD5 digest, take the three consecutive 8-character slices
(characters 0–7, 8–15, 16–23), parse each as a base-16 integer, and reduce
each modulo 256 to obtain red, green, blue. -/
def specRGBFromBytes (bs : List Nat) : Nat × Nat × Nat :=
  let digest := md5hexdigest bs
  (((parseHex ((digest.drop 0).take 8)).getD 0) % 256,
   ((parseHex ((digest.drop 8).take 8)).getD 0) % 256,
   ((parseHex ((digest.drop 16).take 8)).getD 0) % 256)

/-! ## Sanity checks of the component accessor -/

example : sampleColor.getItem ['R'] = .ok 1 := by decide
example : sampleColor.getItem ['r'] = .ok 1 := by decide
example : sampleColor.getItem ['L'] = .ok 6 := by decide
example : sampleColor.getItem ['X'] = .error .notAValidComponent := by decide
example : sampleColor.getItem ['G', 'B'] = .ok 2 := by decide
example : sampleColor.getItem [] = .ok 1 := by decide

/-! ## Helper lemmas shared by the claim theorems -/

/-- For a byte value, `hex(n)[2:].zfill(2)` has exactly two characters and
`int(_, 16)` parses it back. -/
theorem channelHex_spec : ∀ n < 256,
    (channelHex n).length = 2 ∧ parseHex (channelHex n) = some n := by
  decide

/-- Round trip of one color through hex encoding and decoding. -/
theorem roundtrip_helper (r g b : Nat) (hr : r ≤ 255) (hg : g ≤ 255)
    (hb : b ≤ 255) :
    convert_hex_to_rgb (convert_rgb_to_hex (r, g, b)) = some (r, g, b) := by
  have hr' := channelHex_spec r (by omega)
  have hg' := channelHex_spec g (by omega)
  have hb' := channelHex_spec b (by omega)
  obtain ⟨a1, a2, hA⟩ := List.length_eq_two.mp hr'.1
  obtain ⟨d1, d2, hB⟩ := List.length_eq_two.mp hg'.1
  obtain ⟨c1, c2, hC⟩ := List.length_eq_two.mp hb'.1
  have pr : parseHex [a1, a2] = some r := hA ▸ hr'.2
  have pg : parseHex [d1, d2] = some g := hB ▸ hg'.2
  have pb : parseHex [c1, c2] = some b := hC ▸ hb'.2
  unfold convert_rgb_to_hex convert_hex_to_rgb
  simp only [hA, hB, hC, List.cons_append, List.nil_append, List.drop,
    List.take, List.cons.injEq]
  simp [pr, pg, pb]

/-- Rounding a value whose fractional part is exactly one half: Python's
`round` picks the even neighbour, which is within one half of the value. -/
theorem pyRound_fract_half {q : ℚ} (h : Int.fract q = 1/2) :
    Even (pyRound q) ∧ |(pyRound q : ℚ) - q| = 1/2 := by
  obtain ⟨n, hn⟩ : ∃ n : ℤ, q = (n : ℚ) + 1/2 := by
    refine ⟨⌊q⌋, ?_⟩
    have := Int.fract_add_floor q
    rw [h] at this
    linarith
  subst hn
  rw [pyRound_int_add_half]
  by_cases he : Even n
  · rw [if_pos he]
    refine ⟨he, ?_⟩
    rw [abs_of_nonpos (by linarith)]
    ring
  · rw [if_neg he]
    refine ⟨Int.even_add_one.mpr he, ?_⟩
    rw [abs_of_nonneg (by push_cast; linarith)]
    push_cast
    ring

/-- The exact hue at RGB (128, 48, 0) is 22.5 degrees. -/
theorem hueExact_128_48_0 : hueExact (128, 48, 0) = 45/2 := by
  unfold hueExact pyFMod
  norm_num [Int.floor_eq_iff]

/-- Full evaluation of the conversion at the documented test color. -/
theorem hsl_210_12_100 : convert_rgb_to_hsl (210, 12, 100) = (333, 89, 44) := by
  refine Prod.ext ?_ (Prod.ext ?_ ?_)
  · show pyRound (hueExact (210, 12, 100)) = 333
    have h : hueExact (210, 12, 100) = 1000/3 := by
      unfold hueExact pyFMod
      norm_num [Int.floor_eq_iff]
    rw [h]
    exact pyRound_eq_of_mem_Ico (by norm_num) (by norm_num)
  · show pyRound (satExact (210, 12, 100) * 100) = 89
    have h : satExact (210, 12, 100) = 33/37 := by
      unfold satExact lightExact
      norm_num [abs_of_nonneg]
    rw [h]
    exact pyRound_eq_of_mem_Ico (by norm_num) (by norm_num)
  · show pyRound (lightExact (210, 12, 100) * 100) = 44
    have h : lightExact (210, 12, 100) = 37/85 := by
      unfold lightExact
      norm_num
    rw [h]
    exact pyRound_eq_of_mem_Ioc (by norm_num) (by norm_num)

/-! ## Claim theorems -/

/-- C8: for every RGB triplet with components in [0, 255], encoding to hex
and parsing back returns the original triplet. -/
theorem claim_C8_roundtrip (r g b : Nat) (hr : r ≤ 255) (hg : g ≤ 255)
    (hb : b ≤ 255) :
    convert_hex_to_rgb (convert_rgb_to_hex (r, g, b)) = some (r, g, b) :=
  roundtrip_helper r g b hr hg hb

theorem claim_C8_witness :
    (12 : Nat) ≤ 255 ∧ (234 : Nat) ≤ 255 ∧ (0 : Nat) ≤ 255 ∧
      convert_hex_to_rgb (convert_rgb_to_hex (12, 234, 0)) = some (12, 234, 0) :=
  ⟨by decide, by decide, by decide,
    claim_C8_roundtrip 12 234 0 (by decide) (by decide) (by decide)⟩

/-- C2 counterexample: the claim says construction from `"#12345"` fails
with a format error, but the constructor succeeds and stores RGB
(18, 52, 5): no length check is performed on the hex string. -/
theorem claim_C2_counterexample :
    (colorNew defaultRgb "#12345".toList none).map Color._rgb
      = some (some (18, 52, 5)) := by
  decide

/-- C2 (amended): construction from a non-default hex string raises
(`ValueError` from `int(_, 16)`) exactly when one of the three slices fails
to parse as hexadecimal; `"#zzzzzz"` fails, but `"#12345"` succeeds with
RGB (18, 52, 5). -/
theorem claim_C2_amended :
    colorNew defaultRgb "#zzzzzz".toList none = none
    ∧ (colorNew defaultRgb "#12345".toList none).map Color._rgb
        = some (some (18, 52, 5))
    ∧ ∀ hex : List Char, hex ≠ defaultHex →
        (colorNew defaultRgb hex none = none ↔ convert_hex_to_rgb hex = none) := by
  refine ⟨by decide, by decide, ?_⟩
  intro hex hne
  unfold colorNew
  rw [if_pos hne]
  cases h : convert_hex_to_rgb hex <;> simp [h]

theorem claim_C2_witness :
    "#zzzzzz".toList ≠ defaultHex ∧
      (colorNew defaultRgb "#zzzzzz".toList none = none ↔
        convert_hex_to_rgb "#zzzzzz".toList = none) :=
  ⟨by decide, claim_C2_amended.2.2 "#zzzzzz".toList (by decide)⟩

/-- C5 (the code at the failing input): at RGB (255, 0, 1) the conversion
returns hue exactly 360 — the claimed reduction modulo 360 does not happen,
so the hue is not in [0, 360). -/
theorem claim_C5_hue_360 :
    convert_rgb_to_hsl (255, 0, 1) = (360, 100, 50)
    ∧ ¬ (convert_rgb_to_hsl (255, 0, 1)).1 < 360 := by
  have main : convert_rgb_to_hsl (255, 0, 1) = (360, 100, 50) := by
    refine Prod.ext ?_ (Prod.ext ?_ ?_)
    · show pyRound (hueExact (255, 0, 1)) = 360
      have h : hueExact (255, 0, 1) = 6116/17 := by
        unfold hueExact pyFMod
        norm_num [Int.floor_eq_iff]
      rw [h]
      exact pyRound_eq_of_mem_Ioc (by norm_num) (by norm_num)
    · show pyRound (satExact (255, 0, 1) * 100) = 100
      have h : satExact (255, 0, 1) = 1 := by
        unfold satExact lightExact
        norm_num
      rw [h]
      exact pyRound_eq_of_mem_Ico (by norm_num) (by norm_num)
    · show pyRound (lightExact (255, 0, 1) * 100) = 50
      have h : lightExact (255, 0, 1) = 1/2 := by
        unfold lightExact
        norm_num
      rw [h]
      exact pyRound_eq_of_mem_Ico (by norm_num) (by norm_num)
  exact ⟨main, by rw [main]; decide⟩

/-- C1 (the code at the failing input): a Color constructed from an
explicit RGB triplet stores its derived hex in the attribute `_hex`, but
`get_hex` reads `_hex_rgb`, which the RGB branch never sets — so `get_hex`
raises `AttributeError` instead of returning the derived `"#010203"`. -/
theorem claim_C1_get_hex_attribute_error :
    (colorNew (1, 2, 3) defaultHex none).map Color.get_hex = some none
    ∧ (colorNew (1, 2, 3) defaultHex none).map Color._hex
        = some (some "#010203".toList) := by
  exact ⟨by decide, by decide⟩

/-- C6 counterexample: at RGB (128, 48, 0) the exact hue is 22.5 degrees,
and the conversion returns 22, not the claimed
round-half-away-from-zero value 23. -/
theorem claim_C6_counterexample :
    hueExact (128, 48, 0) = 45/2
    ∧ (convert_rgb_to_hsl (128, 48, 0)).1 = 22
    ∧ (convert_rgb_to_hsl (128, 48, 0)).1 ≠ 23 := by
  have hv : (convert_rgb_to_hsl (128, 48, 0)).1 = 22 := by
    show pyRound (hueExact (128, 48, 0)) = 22
    rw [hueExact_128_48_0, show (45/2 : ℚ) = ((22 : ℤ) : ℚ) + 1/2 by norm_num,
      pyRound_int_add_half]
    decide
  exact ⟨hueExact_128_48_0, hv, by rw [hv]; decide⟩

/-- C6 (amended): the conversion rounds with Python 3's `round`, which
rounds a floating-point tie to the even neighbour, not away from zero: at
RGB (128, 48, 0) — where the float computation of the hue is exact, every
intermediate value being dyadic — the exact hue is 22.5 and the conversion
returns the even neighbour 22, within one half of the exact value, not 23.
(No exact-tie rule holds program-wide: on tie triplets whose intermediate
float arithmetic is inexact, such as RGB (0, 40, 3) with exact hue 124.5,
the accumulated float error can land the computed value off one half and
the program then rounds to the odd neighbour — so only the float-exact tie
is asserted.) -/
theorem claim_C6_amended :
    (convert_rgb_to_hsl (128, 48, 0)).1 = 22
    ∧ Even (convert_rgb_to_hsl (128, 48, 0)).1
    ∧ |((convert_rgb_to_hsl (128, 48, 0)).1 : ℚ) - hueExact (128, 48, 0)| = 1/2 := by
  have hf : Int.fract (hueExact (128, 48, 0)) = 1/2 := by
    rw [hueExact_128_48_0, show (45/2 : ℚ) = ((22 : ℤ) : ℚ) + 1/2 by norm_num,
      Int.fract_int_add]
    exact Int.fract_eq_self.mpr ⟨by norm_num, by norm_num⟩
  obtain ⟨he, hd⟩ := pyRound_fract_half hf
  have h22 : (convert_rgb_to_hsl (128, 48, 0)).1 = 22 := by
    show pyRound (hueExact (128, 48, 0)) = 22
    rw [hueExact_128_48_0, show (45/2 : ℚ) = ((22 : ℤ) : ℚ) + 1/2 by norm_num,
      pyRound_int_add_half]
    decide
  exact ⟨h22, he, hd⟩

/-- C7 counterexample: `set_hsl_from_hex` does not leave the RGB triplet
unchanged: on a color whose stored RGB (1, 2, 3) disagrees with its stored
hex `"#000000"`, it overwrites RGB with (0, 0, 0). -/
theorem claim_C7_counterexample :
    (Color.set_hsl_from_hex
        (Color.mk (some (1, 2, 3)) (some "#000000".toList) none
          (some (9, 9, 9)))).map Color._rgb = some (some (0, 0, 0))
    ∧ some ((0, 0, 0) : Nat × Nat × Nat) ≠ some (1, 2, 3) := by
  exact ⟨by decide, by decide⟩

/-- C7 (amended): `set_hex_from_rgb` changes at most the hex,
`set_rgb_from_hex` at most the RGB, and `set_hsl_from_rgb` at most the HSL;
but `set_hsl_from_hex` recomputes the RGB from the hex and then the HSL
from that RGB, mutating both the RGB and the HSL. -/
theorem claim_C7_amended :
    (∀ (c : Color) (rgb : Nat × Nat × Nat), c._rgb = some rgb →
      Color.set_hex_from_rgb c
        = some (Color.mk c._rgb (some (convert_rgb_to_hex rgb)) c._hex c._hsl))
    ∧ (∀ (c : Color) (hex : List Char) (rgb' : Nat × Nat × Nat),
        c._hex_rgb = some hex → convert_hex_to_rgb hex = some rgb' →
      Color.set_rgb_from_hex c
        = some (Color.mk (some rgb') c._hex_rgb c._hex c._hsl))
    ∧ (∀ (c : Color) (rgb : Nat × Nat × Nat), c._rgb = some rgb →
      Color.set_hsl_from_rgb c
        = some (Color.mk c._rgb c._hex_rgb c._hex
            (some (convert_rgb_to_hsl rgb))))
    ∧ (∀ (c : Color) (hex : List Char) (rgb' : Nat × Nat × Nat),
        c._hex_rgb = some hex → convert_hex_to_rgb hex = some rgb' →
      Color.set_hsl_from_hex c
        = some (Color.mk (some rgb') c._hex_rgb c._hex
            (some (convert_rgb_to_hsl rgb')))) := by
  refine ⟨?_, ?_, ?_, ?_⟩
  · intro c rgb h
    simp [Color.set_hex_from_rgb, Color.get_rgb, h]
  · intro c hex rgb' h hp
    simp [Color.set_rgb_from_hex, Color.get_hex, h, hp]
  · intro c rgb h
    simp [Color.set_hsl_from_rgb, Color.get_rgb, h]
  · intro c hex rgb' h hp
    simp [Color.set_hsl_from_hex, Color.get_hex, h, hp]

theorem claim_C7_witness :
    Color.set_hsl_from_hex
        (Color.mk (some (7, 7, 7)) (some "#010203".toList) none (some (9, 9, 9)))
      = some (Color.mk (some (1, 2, 3)) (some "#010203".toList) none
          (some (convert_rgb_to_hsl (1, 2, 3)))) :=
  claim_C7_amended.2.2.2
    (Color.mk (some (7, 7, 7)) (some "#010203".toList) none (some (9, 9, 9)))
    "#010203".toList (1, 2, 3) rfl (by decide)

/-- C9: on any color with both models stored, each single-letter component
name, in upper or lower case, returns the scalar at the matching position
of the matching model: R/G/B the first/second/third RGB component, H/S/L
the first/second/third HSL component. -/
theorem claim_C9_component_lookup (c : Color) (r g b : Nat) (h s l : ℤ)
    (h1 : c._rgb = some (r, g, b)) (h2 : c._hsl = some (h, s, l)) :
    c.getItem ['R'] = .ok (r : ℤ) ∧ c.getItem ['r'] = .ok (r : ℤ)
    ∧ c.getItem ['G'] = .ok (g : ℤ) ∧ c.getItem ['g'] = .ok (g : ℤ)
    ∧ c.getItem ['B'] = .ok (b : ℤ) ∧ c.getItem ['b'] = .ok (b : ℤ)
    ∧ c.getItem ['H'] = .ok h ∧ c.getItem ['h'] = .ok h
    ∧ c.getItem ['S'] = .ok s ∧ c.getItem ['s'] = .ok s
    ∧ c.getItem ['L'] = .ok l ∧ c.getItem ['l'] = .ok l := by
  obtain ⟨o1, o2, o3, o4⟩ := c
  dsimp only at h1 h2
  subst h1 h2
  exact ⟨rfl, rfl, rfl, rfl, rfl, rfl, rfl, rfl, rfl, rfl, rfl, rfl⟩

theorem claim_C9_witness :
    sampleColor.getItem ['R'] = .ok ((1 : Nat) : ℤ)
    ∧ sampleColor.getItem ['r'] = .ok ((1 : Nat) : ℤ)
    ∧ sampleColor.getItem ['G'] = .ok ((2 : Nat) : ℤ)
    ∧ sampleColor.getItem ['g'] = .ok ((2 : Nat) : ℤ)
    ∧ sampleColor.getItem ['B'] = .ok ((3 : Nat) : ℤ)
    ∧ sampleColor.getItem ['b'] = .ok ((3 : Nat) : ℤ)
    ∧ sampleColor.getItem ['H'] = .ok 4 ∧ sampleColor.getItem ['h'] = .ok 4
    ∧ sampleColor.getItem ['S'] = .ok 5 ∧ sampleColor.getItem ['s'] = .ok 5
    ∧ sampleColor.getItem ['L'] = .ok 6 ∧ sampleColor.getItem ['l'] = .ok 6 :=
  claim_C9_component_lookup sampleColor 1 2 3 4 5 6 rfl rfl

/-- C3 counterexample: `"GB"` is (case-insensitively) none of the six
component names, yet `__getitem__` silently returns the green component
(because `"GB"` is a substring of `"RGBHSL"` at index 1), instead of
raising the invalid-component error the claim requires. -/
theorem claim_C3_counterexample :
    sampleColor.getItem ['G', 'B'] = .ok 2
    ∧ ['G', 'B'].map Char.toUpper ≠ ['R']
    ∧ ['G', 'B'].map Char.toUpper ≠ ['G']
    ∧ ['G', 'B'].map Char.toUpper ≠ ['B']
    ∧ ['G', 'B'].map Char.toUpper ≠ ['H']
    ∧ ['G', 'B'].map Char.toUpper ≠ ['S']
    ∧ ['G', 'B'].map Char.toUpper ≠ ['L'] := by
  decide

/-- C3 (amended): on any color with both models stored, the lookup raises
the invalid-component error exactly when the uppercased name does not occur
as a contiguous substring of `"RGBHSL"`; substring names (such as `"GB"`,
`"BH"`, or the empty string) instead silently return the component at the
substring's starting index. -/
theorem claim_C3_amended (c : Color) (rgb : Nat × Nat × Nat) (hsl : ℤ × ℤ × ℤ)
    (h1 : c._rgb = some rgb) (h2 : c._hsl = some hsl) (name : List Char) :
    c.getItem name = .error .notAValidComponent
      ↔ findSubstring (name.map Char.toUpper) "RGBHSL".toList = none := by
  obtain ⟨o1, o2, o3, o4⟩ := c
  dsimp only at h1 h2
  subst h1 h2
  unfold Color.getItem
  have hm : (Color.mk (some rgb) o2 o3 (some hsl)).models
      = some [("RGB".toList, [(rgb.1 : ℤ), (rgb.2.1 : ℤ), (rgb.2.2 : ℤ)]),
              ("HSL".toList, [hsl.1, hsl.2.1, hsl.2.2])] := rfl
  rw [hm]
  simp only [List.map, List.foldr]
  have hgc : "RGB".toList ++ ("HSL".toList ++ ([] : List Char))
      = "RGBHSL".toList := rfl
  rw [hgc]
  cases hfs : findSubstring (name.map Char.toUpper) "RGBHSL".toList with
  | none => simp
  | some i =>
    simp only []
    cases hg : ([[(rgb.1 : ℤ), (rgb.2.1 : ℤ), (rgb.2.2 : ℤ)],
        [hsl.1, hsl.2.1, hsl.2.2]] : List (List ℤ)).get? (i / 3) with
    | none => simp
    | some model =>
      cases hg2 : model[i % 3]? with
      | none => simp [hg, hg2]
      | some v => simp [hg, hg2]

theorem claim_C3_witness :
    (sampleColor.getItem ['X'] = .error .notAValidComponent
      ↔ findSubstring (['X'].map Char.toUpper) "RGBHSL".toList = none) :=
  claim_C3_amended sampleColor (1, 2, 3) (4, 5, 6) rfl rfl ['X']

/-- The guarded hue never actually hits a zero denominator: the divisions
by `diff_max_min` sit under the `diff_max_min == 0` test. -/
theorem hueExactChecked_eq (rgb : Nat × Nat × Nat) :
    hueExactChecked rgb = some (hueExact rgb) := by
  obtain ⟨r, g, b⟩ := rgb
  unfold hueExactChecked hueExact qdivChecked
  dsimp only
  split_ifs <;> rfl

/-- The lightness is always within [0, 1] for byte-valued channels. -/
theorem lightExact_mem_Icc (r g b : Nat) (hr : r ≤ 255) (hg : g ≤ 255)
    (hb : b ≤ 255) : 0 ≤ lightExact (r, g, b) ∧ lightExact (r, g, b) ≤ 1 := by
  have hM : max r (max g b) ≤ 255 := Nat.max_le.mpr ⟨hr, Nat.max_le.mpr ⟨hg, hb⟩⟩
  have hm : min r (min g b) ≤ 255 := le_trans (Nat.min_le_left _ _) hr
  have hM' : ((max r (max g b) : ℕ) : ℚ) ≤ 255 := by exact_mod_cast hM
  have hm' : ((min r (min g b) : ℕ) : ℚ) ≤ 255 := by exact_mod_cast hm
  have hM0 : (0 : ℚ) ≤ ((max r (max g b) : ℕ) : ℚ) := Nat.cast_nonneg _
  have hm0 : (0 : ℚ) ≤ ((min r (min g b) : ℕ) : ℚ) := Nat.cast_nonneg _
  unfold lightExact
  constructor
  · positivity
  · rw [div_le_one (by norm_num)]
    linarith

/-- The guarded saturation never actually hits a zero denominator: when the
lightness is neither 0 nor 1 it lies strictly inside (0, 1), so
`1 - |2*l - 1|` is nonzero. -/
theorem satExactChecked_eq (r g b : Nat) (hr : r ≤ 255) (hg : g ≤ 255)
    (hb : b ≤ 255) : satExactChecked (r, g, b) = some (satExact (r, g, b)) := by
  obtain ⟨hl0, hl1⟩ := lightExact_mem_Icc r g b hr hg hb
  unfold satExactChecked satExact qdivChecked
  dsimp only
  split_ifs with hl hd
  · rfl
  · exfalso
    have habs : |2 * lightExact (r, g, b) - 1| = 1 := by linarith
    rcases (abs_eq (by norm_num : (0:ℚ) ≤ 1)).mp habs with h1 | h1
    · exact hl (Or.inr (by linarith))
    · exact hl (Or.inl (by linarith))
  · rfl

/-- C10: for byte-valued channels, the division-guarded conversion never
fails and agrees with the unguarded one — every division by
`diff_max_min` is reached only under `diff_max_min ≠ 0`, and the division
by `1 - |2*l - 1|` only when the lightness is strictly between 0 and 1. -/
theorem claim_C10_no_division_by_zero (r g b : Nat) (hr : r ≤ 255)
    (hg : g ≤ 255) (hb : b ≤ 255) :
    convert_rgb_to_hsl_checked (r, g, b) = some (convert_rgb_to_hsl (r, g, b)) := by
  unfold convert_rgb_to_hsl_checked convert_rgb_to_hsl
  rw [hueExactChecked_eq, satExactChecked_eq r g b hr hg hb]
  rfl

theorem claim_C10_witness :
    convert_rgb_to_hsl_checked (10, 20, 30)
      = some (convert_rgb_to_hsl (10, 20, 30)) :=
  claim_C10_no_division_by_zero 10 20 30 (by decide) (by decide) (by decide)

/-! ## Helper lemmas for the hash-derivation claim -/

theorem parseHexDigit_digitChar : ∀ m < 16,
    (parseHexDigit (Nat.digitChar m)).isSome := by
  decide

theorem toDigitsCore_hexdigits (fuel : Nat) :
    ∀ (n : Nat) (acc : List Char), (∀ c ∈ acc, (parseHexDigit c).isSome) →
      ∀ c ∈ Nat.toDigitsCore 16 fuel n acc, (parseHexDigit c).isSome := by
  induction fuel with
  | zero =>
    intro n acc hacc c hc
    rw [Nat.toDigitsCore] at hc
    exact hacc c hc
  | succ fuel ih =>
    intro n acc hacc c hc
    rw [Nat.toDigitsCore] at hc
    by_cases h : n / 16 = 0
    · rw [if_pos h] at hc
      rcases List.mem_cons.mp hc with hc | hc
      · subst hc
        exact parseHexDigit_digitChar _ (Nat.mod_lt _ (by norm_num))
      · exact hacc c hc
    · rw [if_neg h] at hc
      refine ih (n / 16) (Nat.digitChar (n % 16) :: acc) ?_ c hc
      intro c' hc'
      rcases List.mem_cons.mp hc' with hc' | hc'
      · subst hc'
        exact parseHexDigit_digitChar _ (Nat.mod_lt _ (by norm_num))
      · exact hacc c' hc'

theorem channelHex_hexdigits (n : Nat) :
    ∀ c ∈ channelHex n, (parseHexDigit c).isSome := by
  have hdig : ∀ c ∈ hexStr n, (parseHexDigit c).isSome := by
    unfold hexStr Nat.toDigits
    exact toDigitsCore_hexdigits (n + 1) n [] (by simp)
  unfold channelHex zfill2
  split_ifs
  · intro c hc
    rcases List.mem_append.mp hc with hc | hc
    · rw [List.eq_of_mem_replicate hc]
      decide
    · exact hdig c hc
  · exact hdig

theorem parseHex_foldlM_isSome (s : List Char)
    (hall : ∀ c ∈ s, (parseHexDigit c).isSome) : ∀ acc : Nat,
    (s.foldlM (fun acc c => (parseHexDigit c).map (fun d => 16 * acc + d))
      acc).isSome := by
  induction s with
  | nil => intro acc; simp
  | cons c t ih =>
    intro acc
    obtain ⟨d, hd⟩ := Option.isSome_iff_exists.mp
      (hall c (List.mem_cons_self c t))
    rw [List.foldlM_cons, hd]
    exact ih (fun c' hc' => hall c' (List.mem_cons_of_mem c hc')) _

theorem parseHex_isSome (s : List Char) (hne : s ≠ [])
    (hall : ∀ c ∈ s, (parseHexDigit c).isSome) : (parseHex s).isSome := by
  unfold parseHex
  rw [if_neg hne]
  exact parseHex_foldlM_isSome s hall 0

theorem toLEBytes_length : ∀ k n, (toLEBytes k n).length = k := by
  intro k
  induction k with
  | zero => intro n; rfl
  | succ k ih => intro n; simp [toLEBytes, ih]

theorem md5Bytes_length (msg : List Nat) : (md5Bytes msg).length = 16 := by
  unfold md5Bytes
  rcases h : (chunks64 (md5Pad msg).length (md5Pad msg)).foldl md5Block
      (0x67452301, 0xefcdab89, 0x98badcfe, 0x10325476) with ⟨a, b, c, d⟩
  simp [toLEBytes_length]

theorem flatMap_channelHex_length (l : List Nat) :
    (l.flatMap channelHex).length = (l.map (fun x => (channelHex x).length)).sum := by
  induction l with
  | nil => rfl
  | cons x t ih => simp [List.flatMap_cons, ih]

theorem channelHex_length_of_lt (n : Nat) (h : n < 256) :
    (channelHex n).length = 2 :=
  (channelHex_spec n h).1

theorem toLEBytes_lt : ∀ k n, ∀ x ∈ toLEBytes k n, x < 256 := by
  intro k
  induction k with
  | zero => intro n x hx; cases hx
  | succ k ih =>
    intro n x hx
    rcases List.mem_cons.mp hx with hx | hx
    · subst hx; exact Nat.mod_lt _ (by norm_num)
    · exact ih (n / 256) x hx

theorem md5Bytes_lt (msg : List Nat) : ∀ x ∈ md5Bytes msg, x < 256 := by
  unfold md5Bytes
  rcases h : (chunks64 (md5Pad msg).length (md5Pad msg)).foldl md5Block
      (0x67452301, 0xefcdab89, 0x98badcfe, 0x10325476) with ⟨a, b, c, d⟩
  intro x hx
  simp only [List.mem_append] at hx
  rcases hx with ((hx | hx) | hx) | hx <;> exact toLEBytes_lt 4 _ x hx

theorem md5hexdigest_length (msg : List Nat) :
    (md5hexdigest msg).length = 32 := by
  unfold md5hexdigest
  rw [flatMap_channelHex_length]
  have hmap : (md5Bytes msg).map (fun x => (channelHex x).length)
      = (md5Bytes msg).map (fun _ => 2) :=
    List.map_congr_left (fun x hx =>
      channelHex_length_of_lt x (md5Bytes_lt msg x hx))
  have hsum : ∀ l : List Nat, (l.map (fun _ => 2)).sum = 2 * l.length := by
    intro l
    induction l with
    | nil => rfl
    | cons x t ih => simp [ih]; ring
  rw [hmap, hsum, md5Bytes_length]

theorem md5hexdigest_hexdigits (msg : List Nat) :
    ∀ c ∈ md5hexdigest msg, (parseHexDigit c).isSome := by
  intro c hc
  obtain ⟨x, _, hcx⟩ := List.mem_flatMap.mp hc
  exact channelHex_hexdigits x c hcx

theorem digest_slice_parse (msg : List Nat) (k : Nat) (hk : k < 32) :
    ∃ v, parseHex (((md5hexdigest msg).drop k).take 8) = some v := by
  apply Option.isSome_iff_exists.mp
  apply parseHex_isSome
  · apply List.ne_nil_of_length_pos
    rw [List.length_take, List.length_drop, md5hexdigest_length]
    omega
  · intro c hc
    exact md5hexdigest_hexdigits msg c
      (List.drop_subset _ _ (List.take_subset _ _ hc))

/-- Construction from a nonempty byte string always succeeds, and its RGB
triplet is the spec's reference derivation. -/
theorem colorNew_string_rgb (bs : List Nat) (hne : bs ≠ []) :
    (colorNew defaultRgb defaultHex (some bs)).map Color._rgb
      = some (some (specRGBFromBytes bs)) := by
  obtain ⟨v0, hv0⟩ := digest_slice_parse bs 0 (by omega)
  obtain ⟨v1, hv1⟩ := digest_slice_parse bs 8 (by omega)
  obtain ⟨v2, hv2⟩ := digest_slice_parse bs 16 (by omega)
  rw [List.drop_zero] at hv0
  have hrt := roundtrip_helper (v0 % 256) (v1 % 256) (v2 % 256)
    (by omega) (by omega) (by omega)
  have ht : stringTruthy (some bs) = true := by
    simp [stringTruthy, hne]
  unfold colorNew
  rw [if_neg (by simp), if_pos ht]
  show ((Color.blank.set_hex_from_string bs).map Color._rgb) = _
  unfold Color.set_hex_from_string Color.set_rgb_from_string Color.blank
    Color.set_hex_from_rgb Color.get_rgb Color.set_hsl_from_hex Color.get_hex
    specRGBFromBytes
  simp [hv0, hv1, hv2, hrt]

/-- Full evaluation of the constructor on `b"network"`. -/
theorem colorNew_network :
    colorNew defaultRgb defaultHex (some networkBytes)
      = some (Color.mk (some (210, 12, 100)) (some "#d20c64".toList) none
          (some (convert_rgb_to_hsl (210, 12, 100)))) := by
  have hd : md5hexdigest networkBytes
      = "91e02cd2b8621d0c05197f645668c5c4".toList := by decide
  have h0 : parseHex ['9', '1', 'e', '0', '2', 'c', 'd', '2']
      = some 2447387858 := by decide
  have h1 : parseHex ['b', '8', '6', '2', '1', 'd', '0', 'c']
      = some 3093437708 := by decide
  have h2 : parseHex ['0', '5', '1', '9', '7', 'f', '6', '4']
      = some 85557092 := by decide
  have hhex : convert_rgb_to_hex (210, 12, 100)
      = ['#', 'd', '2', '0', 'c', '6', '4'] := by decide
  have hback : convert_hex_to_rgb ['#', 'd', '2', '0', 'c', '6', '4']
      = some (210, 12, 100) := by decide
  have ht : stringTruthy (some networkBytes) = true := by decide
  unfold colorNew
  rw [if_neg (by simp), if_pos ht]
  show Color.blank.set_hex_from_string networkBytes = _
  unfold Color.set_hex_from_string Color.set_rgb_from_string Color.blank
    Color.set_hex_from_rgb Color.get_rgb Color.set_hsl_from_hex Color.get_hex
  rw [hd]
  simp [h0, h1, h2, hhex, hback]

/-- C4 (amended): for every nonempty byte string the constructed color's
RGB triplet is exactly the spec's reference derivation (MD5 hexdigest,
slices 0–7 / 8–15 / 16–23, base-16, mod 256), and the documented test
vector holds: `b"network"` gives RGB (210, 12, 100), hex `"#d20c64"` and
HSL (333, 89, 44).  (The empty byte string is excluded: it is falsy, so
construction falls through to the RGB branch.) -/
theorem claim_C4_amended :
    (∀ bs : List Nat, bs ≠ [] →
      (colorNew defaultRgb defaultHex (some bs)).map Color._rgb
        = some (some (specRGBFromBytes bs)))
    ∧ (colorNew defaultRgb defaultHex (some networkBytes)).map Color.get_rgb
        = some (some (210, 12, 100))
    ∧ (colorNew defaultRgb defaultHex (some networkBytes)).map Color.get_hex
        = some (some "#d20c64".toList)
    ∧ (colorNew defaultRgb defaultHex (some networkBytes)).map Color.get_hsl
        = some (some (333, 89, 44)) := by
  refine ⟨colorNew_string_rgb, ?_, ?_, ?_⟩
  · rw [colorNew_network]; rfl
  · rw [colorNew_network]; rfl
  · rw [colorNew_network]
    show some (some (convert_rgb_to_hsl (210, 12, 100))) = _
    rw [hsl_210_12_100]

/-- C4 counterexample: the claim quantifies over every byte string, but the
empty byte string is falsy in the constructor's `elif string:` test, so
`Color(string=b"")` falls through to the RGB branch and stores the default
(0, 0, 0) — not the reference derivation (217, 4, 152) from the MD5 digest
of the empty input. -/
theorem claim_C4_counterexample :
    (colorNew defaultRgb defaultHex (some [])).map Color._rgb
      = some (some (0, 0, 0))
    ∧ specRGBFromBytes [] = (217, 4, 152)
    ∧ ((0, 0, 0) : Nat × Nat × Nat) ≠ (217, 4, 152) := by
  refine ⟨by decide, by decide, by decide⟩

theorem claim_C4_witness :
    networkBytes ≠ []
    ∧ (colorNew defaultRgb defaultHex (some networkBytes)).map Color._rgb
        = some (some (specRGBFromBytes networkBytes)) :=
  ⟨by decide, claim_C4_amended.1 networkBytes (by decide)⟩

end Poppins
